import Mathlib

/-!
# Aura faucet: verified shallow embedding

A shallow embedding of the admission-control core of the `aura-blockchain/faucet`
repository (Go), together with proofs about the claims of its specification.

Conventions of the embedding:

* Go `map[K]V` is modelled as an association list `List (K × V)`; `mget`, `mset`
  and `mdel` model map lookup, assignment and `delete`.  `mset` overwrites in
  place, so distinctness of keys is preserved.
* Go `time.Time` and `time.Duration` are modelled as `Int` nanoseconds (Go's
  `time.Duration` is an `int64` nanosecond count; `time.Time` is modelled by its
  nanosecond offset from the epoch).  `time.Now()` is passed in explicitly as a
  `now` parameter; a Go function body that reads the clock several times in one
  critical section is modelled with a single `now`.
* Go `int`/`int64` counters are modelled as `Int`.
* External primitives of the Go standard library that the repository merely
  calls (the SHA-256 digest of `crypto/sha256`+`encoding/hex`, the IP parsing
  and subnet arithmetic of `net`, the random streams of `math/rand` and
  `crypto/rand`, and the local-timezone accessors `Time.Hour`/`Time.Format`)
  are taken as parameters of the model; every piece of logic written in the
  repository itself is embedded concretely.
* A Go function that can panic is modelled with `Option`, `none` standing for
  the panic (the only reachable panic here is `strings.Repeat` with a negative
  count).
-/

namespace Faucet

/-- Lookup in an association list, modelling Go map read `m[k]`. -/
def mget {κ α : Type} [DecidableEq κ] (m : List (κ × α)) (k : κ) : Option α :=
  match m with
  | [] => none
  | (k', v) :: t => if k' = k then some v else mget t k

/-- Assignment in an association list, modelling Go map write `m[k] = v`:
overwrites the binding if the key is present, otherwise appends it. -/
def mset {κ α : Type} [DecidableEq κ] (m : List (κ × α)) (k : κ) (v : α) :
    List (κ × α) :=
  match m with
  | [] => [(k, v)]
  | (k', v') :: t => if k' = k then (k, v) :: t else (k', v') :: mset t k v

/-- Deletion from an association list, modelling Go `delete(m, k)`. -/
def mdel {κ α : Type} [DecidableEq κ] (m : List (κ × α)) (k : κ) :
    List (κ × α) :=
  match m with
  | [] => []
  | (k', v) :: t => if k' = k then mdel t k else (k', v) :: mdel t k

theorem mget_mset_self {κ α : Type} [DecidableEq κ]
    (m : List (κ × α)) (k : κ) (v : α) : mget (mset m k v) k = some v := by
  induction m with
  | nil => simp [mget, mset]
  | cons p t ih =>
    by_cases h : p.1 = k <;> simp [mget, mset, h, ih]

theorem mget_mset_ne {κ α : Type} [DecidableEq κ]
    (m : List (κ × α)) (k k' : κ) (v : α) (h : k ≠ k') :
    mget (mset m k v) k' = mget m k' := by
  induction m with
  | nil => simp [mget, mset, h]
  | cons p t ih =>
    by_cases hp : p.1 = k <;> simp [mget, mset, hp, h, ih]

theorem mget_mdel_self {κ α : Type} [DecidableEq κ]
    (m : List (κ × α)) (k : κ) : mget (mdel m k) k = none := by
  induction m with
  | nil => simp [mget, mdel]
  | cons p t ih =>
    by_cases h : p.1 = k <;> simp [mget, mdel, h, ih]

theorem mget_mdel_ne {κ α : Type} [DecidableEq κ]
    (m : List (κ × α)) (k k' : κ) (h : k ≠ k') :
    mget (mdel m k) k' = mget m k' := by
  induction m with
  | nil => simp [mget, mdel]
  | cons p t ih =>
    by_cases hp : p.1 = k <;> simp [mget, mdel, hp, h, ih]

/-! ## Time constants (nanoseconds, as in Go's `time` package) -/

def secondNs : Int := 1000000000
def minuteNs : Int := 60 * secondNs
def hourNs : Int := 3600 * secondNs
def tenMinutesNs : Int := 600 * secondNs
def thirtySecondsNs : Int := 30 * secondNs

/-! ## Go string helpers used by the PoW engine -/

/-- `strings.HasPrefix(s, pre)` on the underlying character lists. -/
def hasPref : List Char → List Char → Bool
  | _, [] => true
  | [], _ :: _ => false
  | c :: s, d :: t => c == d && hasPref s t

/-- Go `strings.HasPrefix`. -/
def goHasPre (s pre : String) : Bool := hasPref s.data pre.data

/-- Go `strings.Repeat("0", count)`.  `strings.Repeat` panics when `count` is
negative; the panic is modelled by `none`. -/
def goRepeatZero (count : Int) : Option String :=
  if count < 0 then none else some (String.mk (List.replicate count.toNat '0'))

theorem hasPref_nil (l : List Char) : hasPref l [] = true := by
  cases l <;> rfl

/-! ## PoW engine (`backend/pkg/pow/proof_of_work.go`)

The SHA-256 hex digest `hex.EncodeToString(sha256.Sum256(data))` is an external
primitive; it is modelled as a parameter `H : String → String`. -/

/-- `Challenge` of `proof_of_work.go`. -/
structure Challenge where
  id : String
  nonce : String
  difficulty : Int
  createdAt : Int
  expiresAt : Int
deriving Repr, DecidableEq

/-- The mutable state of `ProofOfWork` (challenge store and current
difficulty). -/
structure ProofOfWork where
  challenges : List (String × Challenge)
  difficulty : Int
deriving Repr, DecidableEq

/-- `computeHash`: SHA-256 hex digest of `nonce + solution`, with the digest
function `H` as parameter. -/
def computeHash (H : String → String) (nonce solution : String) : String :=
  H (nonce ++ solution)

/-- `verifyHash`: whether `hash` has `difficulty` leading `'0'` digits.
`none` models the `strings.Repeat` panic on a negative difficulty. -/
def verifyHash (hash : String) (difficulty : Int) : Option Bool :=
  (goRepeatZero difficulty).map (fun pre => goHasPre hash pre)

/-- `GenerateChallenge`: the random nonce and id and the clock reading are
passed in explicitly.  The new challenge is stored with the engine's current
difficulty and a 10-minute validity window. -/
def generateChallenge (p : ProofOfWork) (id nonce : String) (now : Int) :
    Challenge × ProofOfWork :=
  let c : Challenge :=
    { id := id, nonce := nonce, difficulty := p.difficulty,
      createdAt := now, expiresAt := now + tenMinutesNs }
  (c, { p with challenges := mset p.challenges id c })

/-- Result of `Verify`: the `(bool, error)` pair of the Go function, plus a
`panicked` outcome for the `strings.Repeat` panic reachable through a negative
stored difficulty. -/
inductive VerifyResult where
  | ok (valid : Bool)
  | errNotFound
  | errExpired
  | panicked
deriving Repr, DecidableEq

/-- `Verify`: not-found lookup, expiry check (evicting), hash check against the
challenge's stored difficulty; eviction on success only. -/
def verify (H : String → String) (p : ProofOfWork) (challengeID solution : String)
    (now : Int) : VerifyResult × ProofOfWork :=
  match mget p.challenges challengeID with
  | none => (.errNotFound, p)
  | some c =>
    if c.expiresAt < now then
      (.errExpired, { p with challenges := mdel p.challenges challengeID })
    else
      match verifyHash (computeHash H c.nonce solution) c.difficulty with
      | none => (.panicked, p)
      | some valid =>
        if valid then
          (.ok true, { p with challenges := mdel p.challenges challengeID })
        else
          (.ok false, p)

/-- `SetDifficulty`. -/
def setDifficulty (p : ProofOfWork) (difficulty : Int) : ProofOfWork :=
  { p with difficulty := difficulty }

/-- The brute-force loop of `SolveChallenge`, counting attempts up from
`attempts` with `fuel` tries remaining. -/
def solveSearch (H : String → String) (nonce pre : String) :
    Nat → Nat → Option String
  | 0, _ => none
  | fuel + 1, attempts =>
    if goHasPre (computeHash H nonce (toString attempts)) pre then
      some (toString attempts)
    else solveSearch H nonce pre fuel (attempts + 1)

/-- `SolveChallenge`: reference client-side solver; brute force over successive
integer candidates starting at zero, capped at 10000000 attempts.  `none`
covers both exhaustion and the `strings.Repeat` panic on a negative
difficulty. -/
def solveChallenge (H : String → String) (nonce : String) (difficulty : Int) :
    Option String :=
  (goRepeatZero difficulty).bind (fun pre => solveSearch H nonce pre 10000000 0)

theorem solveSearch_sound (H : String → String) (nonce pre : String)
    (fuel attempts : Nat) (sol : String)
    (h : solveSearch H nonce pre fuel attempts = some sol) :
    goHasPre (computeHash H nonce sol) pre = true := by
  induction fuel generalizing attempts with
  | zero => simp [solveSearch] at h
  | succ n ih =>
    rw [solveSearch] at h
    by_cases hc : goHasPre (computeHash H nonce (toString attempts)) pre = true
    · rw [if_pos hc] at h
      cases h
      exact hc
    · rw [if_neg hc] at h
      exact ih _ h

theorem solveChallenge_sound (H : String → String) (nonce : String)
    (difficulty : Int) (sol : String)
    (h : solveChallenge H nonce difficulty = some sol) :
    ∃ pre, goRepeatZero difficulty = some pre ∧
      goHasPre (computeHash H nonce sol) pre = true := by
  unfold solveChallenge at h
  cases hrep : goRepeatZero difficulty with
  | none => rw [hrep] at h; simp at h
  | some pre =>
    rw [hrep] at h
    simp only [Option.some_bind] at h
    exact ⟨pre, rfl, solveSearch_sound H nonce pre _ _ sol h⟩

/-! ## Adaptive difficulty controller (`proof_of_work.go`, `AdaptiveDifficulty`)

Go `float64` loads are modelled as rationals; the thresholds `1.5`, `1.2`,
`0.5` against a baseline of `50.0` are exact at every load value used here. -/

/-- State of `AdaptiveDifficulty` (the wrapped engine is passed separately). -/
structure AdaptiveDifficulty where
  baselineLoad : Rat
  currentLoad : Rat
  baseDifficulty : Int
  maxDifficulty : Int
  minDifficulty : Int
deriving Repr, DecidableEq

/-- `NewAdaptiveDifficulty`: baseline load 50, clamp window
`[base − 1, base + 2]`. -/
def newAdaptiveDifficulty (base : Int) : AdaptiveDifficulty :=
  { baselineLoad := 50, currentLoad := 50, baseDifficulty := base,
    maxDifficulty := base + 2, minDifficulty := base - 1 }

/-- `UpdateLoad`: maps the load to a difficulty relative to the baseline,
clamps it, and pushes it into the PoW engine. -/
def updateLoad (ad : AdaptiveDifficulty) (p : ProofOfWork) (load : Rat) :
    AdaptiveDifficulty × ProofOfWork :=
  let newDifficulty :=
    if load > ad.baselineLoad * 1.5 then ad.baseDifficulty + 2
    else if load > ad.baselineLoad * 1.2 then ad.baseDifficulty + 1
    else if load < ad.baselineLoad * 0.5 then ad.baseDifficulty - 1
    else ad.baseDifficulty
  let clampedHigh :=
    if newDifficulty > ad.maxDifficulty then ad.maxDifficulty else newDifficulty
  let clamped :=
    if clampedHigh < ad.minDifficulty then ad.minDifficulty else clampedHigh
  ({ ad with currentLoad := load }, setDifficulty p clamped)

/-! ## PoW claims -/

/-- Constant digest used to instantiate the abstract SHA-256 parameter in
witnesses: every input hashes to `"0"`, so difficulty 1 is solved at the first
attempt. -/
def hashConst0 : String → String := fun _ => "0"

/-- Constant digest with no leading zero digit. -/
def hashConstA : String → String := fun _ => "a"

/-- C1: a solution found by the reference solver for the challenge's nonce and
the engine's difficulty at issue time verifies exactly once before expiry: the
first `Verify` returns `true` and evicts the challenge, and any second `Verify`
on the same id fails with `NotFound`. -/
theorem pow_solver_solution_verifies_exactly_once
    (H : String → String) (p : ProofOfWork) (id nonce sol sol2 : String)
    (t0 now now2 : Int)
    (hsol : solveChallenge H nonce p.difficulty = some sol)
    (hnow : now ≤ t0 + tenMinutesNs) :
    let p1 := (generateChallenge p id nonce t0).2
    (verify H p1 id sol now).1 = VerifyResult.ok true ∧
    mget (verify H p1 id sol now).2.challenges id = none ∧
    (verify H (verify H p1 id sol now).2 id sol2 now2).1 =
      VerifyResult.errNotFound := by
  intro p1
  obtain ⟨pre, hrep, hhash⟩ := solveChallenge_sound H nonce p.difficulty sol hsol
  have hc : mget p1.challenges id = some
      { id := id, nonce := nonce, difficulty := p.difficulty,
        createdAt := t0, expiresAt := t0 + tenMinutesNs } := by
    simp [p1, generateChallenge, mget_mset_self]
  have hnexp : ¬ (t0 + tenMinutesNs < now) := not_lt.mpr hnow
  have hv : verify H p1 id sol now =
      (VerifyResult.ok true, { p1 with challenges := mdel p1.challenges id }) := by
    simp [verify, hc, verifyHash, hrep, hhash, hnexp]
  refine ⟨by rw [hv], ?_, ?_⟩
  · rw [hv]
    exact mget_mdel_self p1.challenges id
  · rw [hv]
    simp [verify, mget_mdel_self]

theorem pow_solver_solution_verifies_exactly_once_witness :
    (let p1 := (generateChallenge ⟨[], 1⟩ "cid" "n" 0).2
     (verify hashConst0 p1 "cid" "0" 0).1 = VerifyResult.ok true ∧
     mget (verify hashConst0 p1 "cid" "0" 0).2.challenges "cid" = none ∧
     (verify hashConst0 (verify hashConst0 p1 "cid" "0" 0).2 "cid" "x" 0).1 =
       VerifyResult.errNotFound) :=
  pow_solver_solution_verifies_exactly_once hashConst0 ⟨[], 1⟩ "cid" "n" "0" "x"
    0 0 0 (by decide) (by decide)

/-- C6: `SetDifficulty` only affects future challenges: the outstanding
challenge keeps the difficulty `d1` it was issued with, and `Verify` checks the
hash against that stored `d1` (independently of the engine's new difficulty
`d2`): before expiry it returns `true` exactly when the hash of
`nonce ++ solution` has at least `d1` leading zero hex digits. -/
theorem setDifficulty_preserves_outstanding_challenges
    (H : String → String) (p : ProofOfWork) (id nonce sol : String)
    (t0 d2 now : Int) (hd : 0 ≤ p.difficulty) (hnow : now ≤ t0 + tenMinutesNs) :
    let c := (generateChallenge p id nonce t0).1
    let p2 := setDifficulty (generateChallenge p id nonce t0).2 d2
    mget p2.challenges id = some c ∧
    c.difficulty = p.difficulty ∧
    ((verify H p2 id sol now).1 = VerifyResult.ok true ↔
      goHasPre (computeHash H nonce sol)
        (String.mk (List.replicate p.difficulty.toNat '0')) = true) := by
  intro c p2
  have hc : mget p2.challenges id = some
      { id := id, nonce := nonce, difficulty := p.difficulty,
        createdAt := t0, expiresAt := t0 + tenMinutesNs } := by
    simp [p2, setDifficulty, generateChallenge, mget_mset_self]
  have hrep : goRepeatZero p.difficulty =
      some (String.mk (List.replicate p.difficulty.toNat '0')) := by
    simp [goRepeatZero, not_lt.mpr hd]
  have hnexp : ¬ (t0 + tenMinutesNs < now) := not_lt.mpr hnow
  refine ⟨hc, rfl, ?_⟩
  by_cases hh : goHasPre (computeHash H nonce sol)
      (String.mk (List.replicate p.difficulty.toNat '0')) = true
  · simp [verify, hc, verifyHash, hrep, hh, hnexp]
  · simp only [Bool.not_eq_true] at hh
    simp [verify, hc, verifyHash, hrep, hh, hnexp]

theorem setDifficulty_preserves_outstanding_challenges_witness :
    (let c := (generateChallenge ⟨[], 1⟩ "cid" "n" 0).1
     let p2 := setDifficulty (generateChallenge ⟨[], 1⟩ "cid" "n" 0).2 9
     mget p2.challenges "cid" = some c ∧
     c.difficulty = (⟨[], 1⟩ : ProofOfWork).difficulty ∧
     ((verify hashConst0 p2 "cid" "s" 0).1 = VerifyResult.ok true ↔
       goHasPre (computeHash hashConst0 "n" "s")
         (String.mk (List.replicate (⟨[], 1⟩ : ProofOfWork).difficulty.toNat '0'))
         = true)) :=
  setDifficulty_preserves_outstanding_challenges hashConst0 ⟨[], 1⟩ "cid" "n" "s"
    0 9 0 (by decide) (by decide)

/-- C7: `Verify` on a challenge past its expiry returns the `Expired` failure
and evicts the entry, for every candidate solution; a subsequent `Verify` on
the same id fails with `NotFound`. -/
theorem verify_expired_evicts
    (H : String → String) (p : ProofOfWork) (cid sol sol2 : String)
    (c : Challenge) (now now2 : Int)
    (hc : mget p.challenges cid = some c) (hexp : c.expiresAt < now) :
    (verify H p cid sol now).1 = VerifyResult.errExpired ∧
    mget (verify H p cid sol now).2.challenges cid = none ∧
    (verify H (verify H p cid sol now).2 cid sol2 now2).1 =
      VerifyResult.errNotFound := by
  have hv : verify H p cid sol now =
      (VerifyResult.errExpired, { p with challenges := mdel p.challenges cid }) := by
    simp [verify, hc, hexp]
  refine ⟨by rw [hv], ?_, ?_⟩
  · rw [hv]
    exact mget_mdel_self p.challenges cid
  · rw [hv]
    simp [verify, mget_mdel_self]

theorem verify_expired_evicts_witness :
    ((verify hashConst0 ⟨[("cid", ⟨"cid", "n", 1, 0, 5⟩)], 1⟩ "cid" "0" 6).1 =
       VerifyResult.errExpired ∧
     mget (verify hashConst0 ⟨[("cid", ⟨"cid", "n", 1, 0, 5⟩)], 1⟩ "cid" "0"
       6).2.challenges "cid" = none ∧
     (verify hashConst0
       (verify hashConst0 ⟨[("cid", ⟨"cid", "n", 1, 0, 5⟩)], 1⟩ "cid" "0" 6).2
       "cid" "0" 6).1 = VerifyResult.errNotFound) :=
  verify_expired_evicts hashConst0 ⟨[("cid", ⟨"cid", "n", 1, 0, 5⟩)], 1⟩
    "cid" "0" "0" ⟨"cid", "n", 1, 0, 5⟩ 6 6 (by decide) (by decide)

/-- C8: `Verify` with a candidate whose hash lacks the required leading zeros
returns `false` with no error and leaves the engine state unchanged (no
eviction), so retries remain possible until expiry. -/
theorem verify_mismatch_keeps_challenge
    (H : String → String) (p : ProofOfWork) (cid sol : String)
    (c : Challenge) (now : Int)
    (hc : mget p.challenges cid = some c) (hexp : ¬ c.expiresAt < now)
    (hd : 0 ≤ c.difficulty)
    (hmiss : goHasPre (computeHash H c.nonce sol)
      (String.mk (List.replicate c.difficulty.toNat '0')) = false) :
    verify H p cid sol now = (VerifyResult.ok false, p) := by
  have hrep : goRepeatZero c.difficulty =
      some (String.mk (List.replicate c.difficulty.toNat '0')) := by
    simp [goRepeatZero, not_lt.mpr hd]
  simp [verify, hc, verifyHash, hrep, hmiss, hexp]

theorem verify_mismatch_keeps_challenge_witness :
    verify hashConstA ⟨[("cid", ⟨"cid", "n", 1, 0, 5⟩)], 1⟩ "cid" "s" 3 =
      (VerifyResult.ok false, ⟨[("cid", ⟨"cid", "n", 1, 0, 5⟩)], 1⟩) :=
  verify_mismatch_keeps_challenge hashConstA ⟨[("cid", ⟨"cid", "n", 1, 0, 5⟩)], 1⟩
    "cid" "s" ⟨"cid", "n", 1, 0, 5⟩ 3 (by decide) (by decide) (by decide)
    (by decide)

/-- A stored challenge with negative difficulty, reachable through
`SetDifficulty` with a negative argument. -/
def negDiffChallenge : Challenge :=
  { id := "c", nonce := "n", difficulty := -1, createdAt := 0,
    expiresAt := tenMinutesNs }

/-- A PoW engine holding `negDiffChallenge`. -/
def negDiffPow : ProofOfWork :=
  { challenges := [("c", negDiffChallenge)], difficulty := -1 }

/-- C9 counterexample: for a challenge issued at *negative* difficulty (which
the claim includes in "zero or negative"), `Verify` before expiry does not
return `true` for an arbitrary candidate: `strings.Repeat` panics on the
negative count. -/
theorem pow_nonpositive_difficulty_counterexample :
    negDiffChallenge.difficulty ≤ 0 ∧
    ¬ (negDiffChallenge.expiresAt < 0) ∧
    (verify hashConstA negDiffPow "c" "x" 0).1 ≠ VerifyResult.ok true ∧
    (verify hashConstA negDiffPow "c" "x" 0).1 = VerifyResult.panicked := by
  decide

/-- C9 (amended): if the engine's difficulty is zero when a challenge is issued
— reachable because the adaptive controller with base difficulty 1 pushes
`base − 1 = 0` into the engine under low load — then `Verify` on that
challenge before expiry returns `true` for every candidate solution (the
required prefix is empty).  A negative stored difficulty instead panics in
`strings.Repeat`. -/
theorem pow_zero_difficulty_accepts_all
    (H : String → String) (p q : ProofOfWork) (cid sol : String)
    (c : Challenge) (now : Int)
    (hc : mget p.challenges cid = some c) (hd : c.difficulty = 0)
    (hexp : ¬ c.expiresAt < now) :
    (verify H p cid sol now).1 = VerifyResult.ok true ∧
    (updateLoad (newAdaptiveDifficulty 1) q 10).2.difficulty = 0 ∧
    (∀ sol2, c.difficulty < 0 →
      (verify H p cid sol2 now).1 = VerifyResult.panicked) := by
  refine ⟨?_, ?_, ?_⟩
  · have hrep : goRepeatZero c.difficulty = some "" := by
      rw [hd]
      rfl
    simp [verify, hc, verifyHash, hrep, hexp, goHasPre, hasPref_nil]
  · have h1 : ¬ ((10 : Rat) > 50 * 1.5) := by norm_num
    have h2 : ¬ ((10 : Rat) > 50 * 1.2) := by norm_num
    have h3 : (10 : Rat) < 50 * 0.5 := by norm_num
    simp [updateLoad, newAdaptiveDifficulty, setDifficulty, h1, h2, h3]
  · intro sol2 hneg
    rw [hd] at hneg
    exact absurd hneg (by norm_num)

theorem pow_zero_difficulty_accepts_all_witness :
    ((verify hashConstA ⟨[("c", ⟨"c", "n", 0, 0, 5⟩)], 0⟩ "c" "anything" 3).1 =
       VerifyResult.ok true ∧
     (updateLoad (newAdaptiveDifficulty 1) ⟨[], 4⟩ 10).2.difficulty = 0 ∧
     (∀ sol2, (⟨"c", "n", 0, 0, 5⟩ : Challenge).difficulty < 0 →
       (verify hashConstA ⟨[("c", ⟨"c", "n", 0, 0, 5⟩)], 0⟩ "c" sol2 3).1 =
         VerifyResult.panicked)) :=
  pow_zero_difficulty_accepts_all hashConstA ⟨[("c", ⟨"c", "n", 0, 0, 5⟩)], 0⟩
    ⟨[], 4⟩ "c" "anything" ⟨"c", "n", 0, 0, 5⟩ 3 (by decide) (by decide)
    (by decide)

/-! ## Abuse detector (`backend/pkg/abuse/detector.go`)

The Go `net` package functions used by the detector (`net.ParseIP`,
`net.ParseCIDR` and `IPNet.Contains`) are external primitives, bundled into a
`NetModel` parameter.  `subnetV4 ip` models `net.ParseCIDR(ip + "/24")` as the
membership test of the resulting subnet (`none` for a nil subnet), `subnetV6`
likewise for `"/64"`; `isV4` models `To4() != nil`; `inPrivateRange` models
membership in `10.0.0.0/8 ∪ 172.16.0.0/12 ∪ 192.168.0.0/16`. -/

/-- Abstract model of the Go `net` package primitives used by the detector. -/
structure NetModel where
  Addr : Type
  parseIP : String → Option Addr
  isV4 : Addr → Bool
  subnetV4 : String → Option (Addr → Bool)
  subnetV6 : String → Option (Addr → Bool)
  inPrivateRange : Addr → Bool

/-- `DetectorConfig`.  Durations are `Int` nanoseconds. -/
structure DetectorConfig where
  maxAttemptsPerHour : Int
  maxAttemptsPerDay : Int
  blockDuration : Int
  subnetCheckEnabled : Bool
  vpnDetectionEnabled : Bool
  suspiciousThreshold : Int
deriving Repr, DecidableEq

/-- `AttemptTracker`.  Go's zero `time.Time` (the `LastAttempt` of a freshly
created tracker) is modelled as `0`; it lies far in the past of every `now`
used in the theorems below, and no claim depends on its exact value. -/
structure AttemptTracker where
  count : Int
  firstAttempt : Int
  lastAttempt : Int
  successfulCount : Int
  failedCount : Int
  addresses : List (String × Int)
deriving Repr, DecidableEq

/-- `DetectionResult`. -/
structure DetectionResult where
  allowed : Bool
  reason : String
  riskScore : Int
  blockedUntil : Option Int
  recommendedDelay : Int
deriving Repr, DecidableEq

/-- The mutable state of `AbuseDetector`. -/
structure AbuseDetector where
  ipAttempts : List (String × AttemptTracker)
  addressAttempts : List (String × AttemptTracker)
  blockedIPs : List (String × Int)
  blockedAddrs : List (String × Int)
  config : DetectorConfig
deriving Repr, DecidableEq

/-- `NewAbuseDetector`'s config normalization (zero fields replaced by
defaults). -/
def normalizeConfig (c : DetectorConfig) : DetectorConfig :=
  { c with
    maxAttemptsPerHour := if c.maxAttemptsPerHour = 0 then 10 else c.maxAttemptsPerHour,
    maxAttemptsPerDay := if c.maxAttemptsPerDay = 0 then 50 else c.maxAttemptsPerDay,
    blockDuration := if c.blockDuration = 0 then 24 * hourNs else c.blockDuration,
    suspiciousThreshold := if c.suspiciousThreshold = 0 then 5 else c.suspiciousThreshold }

/-- `NewAbuseDetector`: empty maps, normalized config. -/
def newAbuseDetector (c : DetectorConfig) : AbuseDetector :=
  { ipAttempts := [], addressAttempts := [], blockedIPs := [], blockedAddrs := [],
    config := normalizeConfig c }

/-- The fresh tracker allocated by `getOrCreateTracker`. -/
def newTracker (now : Int) : AttemptTracker :=
  { count := 0, firstAttempt := now, lastAttempt := 0, successfulCount := 0,
    failedCount := 0, addresses := [] }

/-- `getOrCreateTracker`: returns the tracker for the key and the (possibly
extended) map. -/
def getOrCreateTracker (trackers : List (String × AttemptTracker)) (key : String)
    (now : Int) : AttemptTracker × List (String × AttemptTracker) :=
  match mget trackers key with
  | some t => (t, trackers)
  | none => (newTracker now, mset trackers key (newTracker now))

/-- `len(tracker.Addresses)` as an `Int`. -/
def numAddresses (t : AttemptTracker) : Int := t.addresses.length

/-- `calculateRiskScore`: the four additive signals of `detector.go`. -/
def calculateRiskScore (cfg : DetectorConfig) (tracker : AttemptTracker)
    (now : Int) : Int :=
  let score : Int := 0
  let score := if tracker.count > cfg.suspiciousThreshold then score + 20 else score
  let score := if tracker.failedCount > tracker.successfulCount * 2 then score + 15
    else score
  let score := if numAddresses tracker > 3 then
      score + 10 * (numAddresses tracker - 3)
    else score
  let score := if now - tracker.lastAttempt < minuteNs ∧ tracker.count > 3 then
      score + 25
    else score
  score

/-- `checkSubnetAbuse`: counts tracked IPs inside the requester's /24 (IPv4) or
/64 (IPv6) subnet; suspicious when more than 5. -/
def checkSubnetAbuse (net : NetModel) (st : AbuseDetector) (ip : String) : Bool :=
  match net.parseIP ip with
  | none => false
  | some p =>
    match (if net.isV4 p then net.subnetV4 ip else net.subnetV6 ip) with
    | none => false
    | some mem =>
      decide (5 < st.ipAttempts.countP (fun kv =>
        match net.parseIP kv.1 with
        | some q => mem q
        | none => false))

/-- `isLikelyVPN`: basic private-range check. -/
def isLikelyVPN (net : NetModel) (ip : String) : Bool :=
  match net.parseIP ip with
  | none => false
  | some p => net.inPrivateRange p

/-- The internal `blockIP` helper: records a timed block of the configured
duration. -/
def blockIPInternal (st : AbuseDetector) (ip : String) (now : Int) : AbuseDetector :=
  { st with blockedIPs := mset st.blockedIPs ip (now + st.config.blockDuration) }

/-- The tail of `CheckRequest` after the hourly check: daily limit, subnet
check, VPN heuristic, address-fanning warning, high-risk delay. -/
def checkRequestTail (net : NetModel) (st : AbuseDetector)
    (tracker : AttemptTracker) (risk : Int) (ip : String) (now : Int) :
    DetectionResult × AbuseDetector :=
  if tracker.successfulCount + tracker.failedCount ≥ st.config.maxAttemptsPerDay then
    ({ allowed := false, reason := "Daily request limit exceeded",
       riskScore := risk, blockedUntil := none, recommendedDelay := 0 },
     blockIPInternal st ip now)
  else if st.config.subnetCheckEnabled && checkSubnetAbuse net st ip then
    ({ allowed := false, reason := "Multiple requests detected from your subnet",
       riskScore := risk + 30, blockedUntil := none, recommendedDelay := 0 }, st)
  else
    let afterVPN :=
      if st.config.vpnDetectionEnabled && isLikelyVPN net ip then
        (risk + 20, thirtySecondsNs)
      else (risk, 0)
    let afterFan :=
      if numAddresses tracker > st.config.suspiciousThreshold then
        (afterVPN.1 + 25, "Suspicious: Multiple addresses requested from same IP")
      else (afterVPN.1, "")
    let delay := if afterFan.1 > 50 then afterFan.1 * secondNs else afterVPN.2
    ({ allowed := true, reason := afterFan.2, riskScore := afterFan.1,
       blockedUntil := none, recommendedDelay := delay }, st)

/-- `CheckRequest` after both block checks: tracker creation, risk score,
hourly window (with reset), then `checkRequestTail`. -/
def checkRequestCore (net : NetModel) (st : AbuseDetector) (ip : String)
    (now : Int) : DetectionResult × AbuseDetector :=
  let tm := getOrCreateTracker st.ipAttempts ip now
  let tracker := tm.1
  let risk := calculateRiskScore st.config tracker now
  if now - tracker.firstAttempt < hourNs then
    if tracker.count ≥ st.config.maxAttemptsPerHour then
      ({ allowed := false,
         reason := "Too many requests from this IP (hourly limit exceeded)",
         riskScore := risk, blockedUntil := none, recommendedDelay := 0 },
       blockIPInternal { st with ipAttempts := tm.2 } ip now)
    else
      checkRequestTail net { st with ipAttempts := tm.2 } tracker risk ip now
  else
    let tracker1 := { tracker with count := 0, firstAttempt := now }
    let st2 := { st with ipAttempts := mset tm.2 ip tracker1 }
    checkRequestTail net st2 tracker1 risk ip now

/-- The blocked-address stage of `CheckRequest`. -/
def checkRequestAddrBlock (net : NetModel) (st : AbuseDetector)
    (ip addr : String) (now : Int) : DetectionResult × AbuseDetector :=
  match mget st.blockedAddrs addr with
  | some blockedUntil =>
    if now < blockedUntil then
      ({ allowed := false, reason := "Address is temporarily blocked",
         riskScore := 0, blockedUntil := some blockedUntil,
         recommendedDelay := 0 }, st)
    else
      checkRequestCore net { st with blockedAddrs := mdel st.blockedAddrs addr }
        ip now
  | none => checkRequestCore net st ip now

/-- `CheckRequest`. -/
def checkRequest (net : NetModel) (st : AbuseDetector) (ip addr : String)
    (now : Int) : DetectionResult × AbuseDetector :=
  match mget st.blockedIPs ip with
  | some blockedUntil =>
    if now < blockedUntil then
      ({ allowed := false, reason := "IP address is temporarily blocked",
         riskScore := 0, blockedUntil := some blockedUntil,
         recommendedDelay := 0 }, st)
    else
      checkRequestAddrBlock net { st with blockedIPs := mdel st.blockedIPs ip }
        ip addr now
  | none => checkRequestAddrBlock net st ip addr now

/-- `RecordAttempt`: updates both the IP tracker (count, last attempt,
address-fanning map, success/failure) and the address tracker. -/
def recordAttempt (st : AbuseDetector) (ip addr : String) (success : Bool)
    (now : Int) : AbuseDetector :=
  let tm := getOrCreateTracker st.ipAttempts ip now
  let t0 := tm.1
  let t1 := { t0 with
    count := t0.count + 1
    lastAttempt := now
    addresses := mset t0.addresses addr ((mget t0.addresses addr).getD 0 + 1) }
  let t2 := if success then { t1 with successfulCount := t1.successfulCount + 1 }
    else { t1 with failedCount := t1.failedCount + 1 }
  let st1 := { st with ipAttempts := mset tm.2 ip t2 }
  let am := getOrCreateTracker st1.addressAttempts addr now
  let a0 := am.1
  let a1 := { a0 with count := a0.count + 1, lastAttempt := now }
  let a2 := if success then { a1 with successfulCount := a1.successfulCount + 1 }
    else { a1 with failedCount := a1.failedCount + 1 }
  { st1 with addressAttempts := mset am.2 addr a2 }

/-! ## Abuse detector lemmas and claims -/

theorem length_mset_le {κ α : Type} [DecidableEq κ]
    (m : List (κ × α)) (k : κ) (v : α) :
    (mset m k v).length ≤ m.length + 1 := by
  induction m with
  | nil => simp [mset]
  | cons p t ih =>
    by_cases h : p.1 = k
    · simp [mset, h]
    · simp only [mset, h, if_false, List.length_cons]
      omega

/-- With at most 5 tracked IPs in total, the subnet-abuse count can never
exceed 5, so `checkSubnetAbuse` returns `false`. -/
theorem checkSubnetAbuse_false_of_le (net : NetModel) (st : AbuseDetector)
    (ip : String) (h : st.ipAttempts.length ≤ 5) :
    checkSubnetAbuse net st ip = false := by
  unfold checkSubnetAbuse
  split
  · rfl
  · split
    · rfl
    · simp only [decide_eq_false_iff_not, not_lt]
      exact le_trans (List.countP_le_length _) h

/-- The bound on the tracker map after `getOrCreateTracker`. -/
theorem length_getOrCreateTracker_le (l : List (String × AttemptTracker))
    (k : String) (now : Int) :
    (getOrCreateTracker l k now).2.length ≤ l.length + 1 := by
  unfold getOrCreateTracker
  cases h : mget l k
  · simp only [h]
    exact length_mset_le l k (newTracker now)
  · simp [h]

/-- The updated IP tracker written by `RecordAttempt`. -/
def bumpTracker (t0 : AttemptTracker) (addr : String) (success : Bool)
    (now : Int) : AttemptTracker :=
  let t1 := { t0 with
    count := t0.count + 1
    lastAttempt := now
    addresses := mset t0.addresses addr ((mget t0.addresses addr).getD 0 + 1) }
  if success then { t1 with successfulCount := t1.successfulCount + 1 }
  else { t1 with failedCount := t1.failedCount + 1 }

theorem recordAttempt_ipAttempts (st : AbuseDetector) (ip addr : String)
    (success : Bool) (now : Int) :
    (recordAttempt st ip addr success now).ipAttempts =
      mset (getOrCreateTracker st.ipAttempts ip now).2 ip
        (bumpTracker (getOrCreateTracker st.ipAttempts ip now).1 addr success now) :=
  rfl

theorem recordAttempt_blockedIPs (st : AbuseDetector) (ip addr : String)
    (success : Bool) (now : Int) :
    (recordAttempt st ip addr success now).blockedIPs = st.blockedIPs := rfl

theorem recordAttempt_blockedAddrs (st : AbuseDetector) (ip addr : String)
    (success : Bool) (now : Int) :
    (recordAttempt st ip addr success now).blockedAddrs = st.blockedAddrs := rfl

theorem recordAttempt_config (st : AbuseDetector) (ip addr : String)
    (success : Bool) (now : Int) :
    (recordAttempt st ip addr success now).config = st.config := rfl

theorem bumpTracker_count (t0 : AttemptTracker) (addr : String) (s : Bool)
    (now : Int) : (bumpTracker t0 addr s now).count = t0.count + 1 := by
  cases s <;> rfl

theorem bumpTracker_firstAttempt (t0 : AttemptTracker) (addr : String)
    (s : Bool) (now : Int) :
    (bumpTracker t0 addr s now).firstAttempt = t0.firstAttempt := by
  cases s <;> rfl

theorem bumpTracker_daily (t0 : AttemptTracker) (addr : String) (s : Bool)
    (now : Int) :
    (bumpTracker t0 addr s now).successfulCount +
      (bumpTracker t0 addr s now).failedCount =
    t0.successfulCount + t0.failedCount + 1 := by
  cases s <;> simp [bumpTracker] <;> omega

/-- When neither the IP nor the address is blocked, `CheckRequest` reduces to
`checkRequestCore`. -/
theorem checkRequest_eq_core (net : NetModel) (st : AbuseDetector)
    (ip addr : String) (now : Int)
    (hbip : mget st.blockedIPs ip = none)
    (hbaddr : mget st.blockedAddrs addr = none) :
    checkRequest net st ip addr now = checkRequestCore net st ip now := by
  unfold checkRequest checkRequestAddrBlock
  rw [hbip, hbaddr]

/-- When the daily cap is not reached and at most 5 IPs are tracked, the tail
of `CheckRequest` allows the request and leaves the state alone. -/
theorem checkRequestTail_allowed (net : NetModel) (st : AbuseDetector)
    (tracker : AttemptTracker) (risk : Int) (ip : String) (now : Int)
    (hday : ¬ (tracker.successfulCount + tracker.failedCount ≥
      st.config.maxAttemptsPerDay))
    (hlen : st.ipAttempts.length ≤ 5) :
    (checkRequestTail net st tracker risk ip now).1.allowed = true ∧
    (checkRequestTail net st tracker risk ip now).2 = st := by
  unfold checkRequestTail
  rw [if_neg hday, checkSubnetAbuse_false_of_le net st ip hlen]
  simp

/-- A `CheckRequest` that passes every gate: not blocked, inside the hourly
window with the count below the cap, below the daily cap, and few enough
tracked IPs for the subnet check.  It is allowed, and the only state change is
the (possible) creation of the requester's tracker. -/
theorem checkRequest_allowed_of (net : NetModel) (st : AbuseDetector)
    (ip addr : String) (now : Int)
    (hbip : mget st.blockedIPs ip = none)
    (hbaddr : mget st.blockedAddrs addr = none)
    (hhour : now - (getOrCreateTracker st.ipAttempts ip now).1.firstAttempt < hourNs)
    (hcnt : ¬ ((getOrCreateTracker st.ipAttempts ip now).1.count ≥
      st.config.maxAttemptsPerHour))
    (hday : ¬ ((getOrCreateTracker st.ipAttempts ip now).1.successfulCount +
      (getOrCreateTracker st.ipAttempts ip now).1.failedCount ≥
      st.config.maxAttemptsPerDay))
    (hlen : st.ipAttempts.length ≤ 4) :
    (checkRequest net st ip addr now).1.allowed = true ∧
    (checkRequest net st ip addr now).2 =
      { st with ipAttempts := (getOrCreateTracker st.ipAttempts ip now).2 } := by
  rw [checkRequest_eq_core net st ip addr now hbip hbaddr]
  unfold checkRequestCore
  simp only []
  rw [if_pos hhour, if_neg hcnt]
  exact checkRequestTail_allowed net _ _ _ ip now hday
    (le_trans (length_getOrCreateTracker_le st.ipAttempts ip now) (by omega))

/-- A `CheckRequest` that is not blocked and is inside the hourly window with
the count at or above the cap: denied with the hourly reason, and the IP is
blocked for the configured duration. -/
theorem checkRequest_hourly_denied_of (net : NetModel) (st : AbuseDetector)
    (ip addr : String) (now : Int)
    (hbip : mget st.blockedIPs ip = none)
    (hbaddr : mget st.blockedAddrs addr = none)
    (hhour : now - (getOrCreateTracker st.ipAttempts ip now).1.firstAttempt < hourNs)
    (hcnt : (getOrCreateTracker st.ipAttempts ip now).1.count ≥
      st.config.maxAttemptsPerHour) :
    (checkRequest net st ip addr now).1.allowed = false ∧
    (checkRequest net st ip addr now).1.reason =
      "Too many requests from this IP (hourly limit exceeded)" ∧
    mget (checkRequest net st ip addr now).2.blockedIPs ip =
      some (now + st.config.blockDuration) := by
  rw [checkRequest_eq_core net st ip addr now hbip hbaddr]
  unfold checkRequestCore
  simp only []
  rw [if_pos hhour, if_pos hcnt]
  refine ⟨rfl, rfl, ?_⟩
  unfold blockIPInternal
  exact mget_mset_self _ _ _

/-- C2: starting from a detector with no pre-existing state and
`MaxAttemptsPerHour = 3` (and a daily cap above 2, as with the default 50),
three `CheckRequest`+`RecordAttempt` cycles for one IP/address pair at times
within one hour of the first are all allowed; a fourth `CheckRequest` still
inside the hour window is denied with reason exactly
`"Too many requests from this IP (hourly limit exceeded)"` and records a
block for that IP until `now + BlockDuration`. -/
theorem hourly_cap_three_cycles_then_block
    (net : NetModel) (cfg : DetectorConfig) (ip addr : String)
    (t1 t2 t3 t4 : Int) (s1 s2 s3 : Bool) (st0 st1 st2 st3 : AbuseDetector)
    (r1 r2 r3 r4 : DetectionResult × AbuseDetector)
    (hhour3 : cfg.maxAttemptsPerHour = 3) (hdaycap : 2 < cfg.maxAttemptsPerDay)
    (h21 : t2 - t1 < hourNs) (h31 : t3 - t1 < hourNs) (h41 : t4 - t1 < hourNs)
    (hst0 : st0 = { ipAttempts := [], addressAttempts := [], blockedIPs := [],
                    blockedAddrs := [], config := cfg })
    (hr1 : r1 = checkRequest net st0 ip addr t1)
    (hst1 : st1 = recordAttempt r1.2 ip addr s1 t1)
    (hr2 : r2 = checkRequest net st1 ip addr t2)
    (hst2 : st2 = recordAttempt r2.2 ip addr s2 t2)
    (hr3 : r3 = checkRequest net st2 ip addr t3)
    (hst3 : st3 = recordAttempt r3.2 ip addr s3 t3)
    (hr4 : r4 = checkRequest net st3 ip addr t4) :
    r1.1.allowed = true ∧ r2.1.allowed = true ∧ r3.1.allowed = true ∧
    r4.1.allowed = false ∧
    r4.1.reason = "Too many requests from this IP (hourly limit exceeded)" ∧
    mget r4.2.blockedIPs ip = some (t4 + cfg.blockDuration) := by
  have hourpos : (0 : Int) < hourNs := by norm_num [hourNs, secondNs]
  -- trackers after each cycle
  set b1 := bumpTracker (newTracker t1) addr s1 t1 with hb1
  set b2 := bumpTracker b1 addr s2 t2 with hb2
  set b3 := bumpTracker b2 addr s3 t3 with hb3
  have hb1c : b1.count = 1 := by rw [hb1, bumpTracker_count]; rfl
  have hb2c : b2.count = 2 := by rw [hb2, bumpTracker_count, hb1c]; rfl
  have hb3c : b3.count = 3 := by rw [hb3, bumpTracker_count, hb2c]; rfl
  have hb1f : b1.firstAttempt = t1 := by rw [hb1, bumpTracker_firstAttempt]; rfl
  have hb2f : b2.firstAttempt = t1 := by rw [hb2, bumpTracker_firstAttempt, hb1f]
  have hb3f : b3.firstAttempt = t1 := by rw [hb3, bumpTracker_firstAttempt, hb2f]
  have hb1d : b1.successfulCount + b1.failedCount = 1 := by
    rw [hb1, bumpTracker_daily]; rfl
  have hb2d : b2.successfulCount + b2.failedCount = 2 := by
    rw [hb2, bumpTracker_daily, hb1d]
    decide
  -- cycle 1
  have hg0 : getOrCreateTracker st0.ipAttempts ip t1 =
      (newTracker t1, [(ip, newTracker t1)]) := by
    rw [hst0]; rfl
  have ha1 := checkRequest_allowed_of net st0 ip addr t1
    (by rw [hst0]; rfl) (by rw [hst0]; rfl)
    (by rw [hg0]; simpa [newTracker] using hourpos)
    (by rw [hg0, hst0]; simp [newTracker, hhour3])
    (by rw [hg0, hst0]; simp [newTracker]; omega)
    (by rw [hst0]; simp)
  have hr12ip : r1.2.ipAttempts = [(ip, newTracker t1)] := by
    rw [hr1, ha1.2]
    show (getOrCreateTracker st0.ipAttempts ip t1).2 = [(ip, newTracker t1)]
    rw [hg0]
  have hr12b : r1.2.blockedIPs = [] := by
    rw [hr1, ha1.2]
    show st0.blockedIPs = []
    rw [hst0]
  have hr12ba : r1.2.blockedAddrs = [] := by
    rw [hr1, ha1.2]
    show st0.blockedAddrs = []
    rw [hst0]
  have hr12c : r1.2.config = cfg := by
    rw [hr1, ha1.2]
    show st0.config = cfg
    rw [hst0]
  have hgA : getOrCreateTracker [(ip, newTracker t1)] ip t1 =
      (newTracker t1, [(ip, newTracker t1)]) := by
    simp [getOrCreateTracker, mget]
  have hst1ip : st1.ipAttempts = [(ip, b1)] := by
    rw [hst1, recordAttempt_ipAttempts, hr12ip, hgA, hb1]
    simp [mset]
  have hst1b : st1.blockedIPs = [] := by
    rw [hst1, recordAttempt_blockedIPs, hr12b]
  have hst1ba : st1.blockedAddrs = [] := by
    rw [hst1, recordAttempt_blockedAddrs, hr12ba]
  have hst1c : st1.config = cfg := by
    rw [hst1, recordAttempt_config, hr12c]
  -- cycle 2
  have hgB : getOrCreateTracker st1.ipAttempts ip t2 = (b1, [(ip, b1)]) := by
    rw [hst1ip]
    simp [getOrCreateTracker, mget]
  have ha2 := checkRequest_allowed_of net st1 ip addr t2
    (by rw [hst1b]; rfl) (by rw [hst1ba]; rfl)
    (by rw [hgB]; simpa [hb1f] using h21)
    (by rw [hgB]; simp [hb1c, hst1c, hhour3])
    (by rw [hgB]; simp only []; rw [hb1d, hst1c]; omega)
    (by rw [hst1ip]; simp)
  have hr22ip : r2.2.ipAttempts = [(ip, b1)] := by
    rw [hr2, ha2.2]
    show (getOrCreateTracker st1.ipAttempts ip t2).2 = [(ip, b1)]
    rw [hgB]
  have hr22b : r2.2.blockedIPs = [] := by
    rw [hr2, ha2.2]
    show st1.blockedIPs = []
    rw [hst1b]
  have hr22ba : r2.2.blockedAddrs = [] := by
    rw [hr2, ha2.2]
    show st1.blockedAddrs = []
    rw [hst1ba]
  have hr22c : r2.2.config = cfg := by
    rw [hr2, ha2.2]
    show st1.config = cfg
    rw [hst1c]
  have hgA2 : getOrCreateTracker [(ip, b1)] ip t2 = (b1, [(ip, b1)]) := by
    simp [getOrCreateTracker, mget]
  have hst2ip : st2.ipAttempts = [(ip, b2)] := by
    rw [hst2, recordAttempt_ipAttempts, hr22ip, hgA2, hb2]
    simp [mset]
  have hst2b : st2.blockedIPs = [] := by
    rw [hst2, recordAttempt_blockedIPs, hr22b]
  have hst2ba : st2.blockedAddrs = [] := by
    rw [hst2, recordAttempt_blockedAddrs, hr22ba]
  have hst2c : st2.config = cfg := by
    rw [hst2, recordAttempt_config, hr22c]
  -- cycle 3
  have hgC : getOrCreateTracker st2.ipAttempts ip t3 = (b2, [(ip, b2)]) := by
    rw [hst2ip]
    simp [getOrCreateTracker, mget]
  have ha3 := checkRequest_allowed_of net st2 ip addr t3
    (by rw [hst2b]; rfl) (by rw [hst2ba]; rfl)
    (by rw [hgC]; simpa [hb2f] using h31)
    (by rw [hgC]; simp [hb2c, hst2c, hhour3])
    (by rw [hgC]; simp only []; rw [hb2d, hst2c]; omega)
    (by rw [hst2ip]; simp)
  have hr32ip : r3.2.ipAttempts = [(ip, b2)] := by
    rw [hr3, ha3.2]
    show (getOrCreateTracker st2.ipAttempts ip t3).2 = [(ip, b2)]
    rw [hgC]
  have hr32b : r3.2.blockedIPs = [] := by
    rw [hr3, ha3.2]
    show st2.blockedIPs = []
    rw [hst2b]
  have hr32ba : r3.2.blockedAddrs = [] := by
    rw [hr3, ha3.2]
    show st2.blockedAddrs = []
    rw [hst2ba]
  have hr32c : r3.2.config = cfg := by
    rw [hr3, ha3.2]
    show st2.config = cfg
    rw [hst2c]
  have hgA3 : getOrCreateTracker [(ip, b2)] ip t3 = (b2, [(ip, b2)]) := by
    simp [getOrCreateTracker, mget]
  have hst3ip : st3.ipAttempts = [(ip, b3)] := by
    rw [hst3, recordAttempt_ipAttempts, hr32ip, hgA3, hb3]
    simp [mset]
  have hst3b : st3.blockedIPs = [] := by
    rw [hst3, recordAttempt_blockedIPs, hr32b]
  have hst3ba : st3.blockedAddrs = [] := by
    rw [hst3, recordAttempt_blockedAddrs, hr32ba]
  have hst3c : st3.config = cfg := by
    rw [hst3, recordAttempt_config, hr32c]
  -- cycle 4: denied
  have hgD : getOrCreateTracker st3.ipAttempts ip t4 = (b3, [(ip, b3)]) := by
    rw [hst3ip]
    simp [getOrCreateTracker, mget]
  have ha4 := checkRequest_hourly_denied_of net st3 ip addr t4
    (by rw [hst3b]; rfl) (by rw [hst3ba]; rfl)
    (by rw [hgD]; simpa [hb3f] using h41)
    (by rw [hgD]; simp [hb3c, hst3c, hhour3])
  refine ⟨by rw [hr1]; exact ha1.1, by rw [hr2]; exact ha2.1,
    by rw [hr3]; exact ha3.1, by rw [hr4]; exact ha4.1,
    by rw [hr4]; exact ha4.2.1, ?_⟩
  rw [hr4]
  rw [ha4.2.2, hst3c]

/-- A degenerate net model for witnesses: no string parses as an IP. -/
def c2net : NetModel :=
  { Addr := Unit, parseIP := fun _ => none, isV4 := fun _ => true,
    subnetV4 := fun _ => none, subnetV6 := fun _ => none,
    inPrivateRange := fun _ => false }

/-- Witness configuration: hourly cap 3, defaults elsewhere. -/
def c2cfg : DetectorConfig :=
  { maxAttemptsPerHour := 3, maxAttemptsPerDay := 50,
    blockDuration := 24 * hourNs, subnetCheckEnabled := true,
    vpnDetectionEnabled := true, suspiciousThreshold := 5 }

/-- Witness run: a fresh detector and the three recorded cycles. -/
def c2st0 : AbuseDetector :=
  { ipAttempts := [], addressAttempts := [], blockedIPs := [],
    blockedAddrs := [], config := c2cfg }

def c2st1 : AbuseDetector :=
  recordAttempt (checkRequest c2net c2st0 "203.0.113.9" "aura1q" 0).2
    "203.0.113.9" "aura1q" true 0

def c2st2 : AbuseDetector :=
  recordAttempt (checkRequest c2net c2st1 "203.0.113.9" "aura1q" 0).2
    "203.0.113.9" "aura1q" true 0

def c2st3 : AbuseDetector :=
  recordAttempt (checkRequest c2net c2st2 "203.0.113.9" "aura1q" 0).2
    "203.0.113.9" "aura1q" false 0

theorem hourly_cap_three_cycles_then_block_witness :
    ((checkRequest c2net c2st0 "203.0.113.9" "aura1q" 0).1.allowed = true ∧
     (checkRequest c2net c2st1 "203.0.113.9" "aura1q" 0).1.allowed = true ∧
     (checkRequest c2net c2st2 "203.0.113.9" "aura1q" 0).1.allowed = true ∧
     (checkRequest c2net c2st3 "203.0.113.9" "aura1q" 0).1.allowed = false ∧
     (checkRequest c2net c2st3 "203.0.113.9" "aura1q" 0).1.reason =
       "Too many requests from this IP (hourly limit exceeded)" ∧
     mget (checkRequest c2net c2st3 "203.0.113.9" "aura1q" 0).2.blockedIPs
       "203.0.113.9" = some (0 + c2cfg.blockDuration)) :=
  hourly_cap_three_cycles_then_block c2net c2cfg "203.0.113.9" "aura1q"
    0 0 0 0 true true false c2st0 c2st1 c2st2 c2st3
    (checkRequest c2net c2st0 "203.0.113.9" "aura1q" 0)
    (checkRequest c2net c2st1 "203.0.113.9" "aura1q" 0)
    (checkRequest c2net c2st2 "203.0.113.9" "aura1q" 0)
    (checkRequest c2net c2st3 "203.0.113.9" "aura1q" 0)
    rfl (by decide) (by decide) (by decide) (by decide)
    rfl rfl rfl rfl rfl rfl rfl rfl

/-- Spec-side signal: +20 when total attempts exceed the suspicious
threshold. -/
def riskSignalHighFrequency (cfg : DetectorConfig) (t : AttemptTracker) : Int :=
  if t.count > cfg.suspiciousThreshold then 20 else 0

/-- Spec-side signal: +15 when failed attempts exceed twice the successful
ones. -/
def riskSignalFailureRate (t : AttemptTracker) : Int :=
  if t.failedCount > t.successfulCount * 2 then 15 else 0

/-- Spec-side signal: +10 per distinct address beyond the third seen from this
IP. -/
def riskSignalAddressFanning (t : AttemptTracker) : Int :=
  10 * max 0 (numAddresses t - 3)

/-- Spec-side signal: +25 when the last attempt was under one minute ago and
total attempts exceed three. -/
def riskSignalRapidAttempts (t : AttemptTracker) (now : Int) : Int :=
  if now - t.lastAttempt < minuteNs ∧ t.count > 3 then 25 else 0

/-- C4: the risk score `CheckRequest` computes for the requesting IP's tracker
(`calculateRiskScore`) is the sum of exactly the four independent signals. -/
theorem calculateRiskScore_eq_sum_of_signals (cfg : DetectorConfig)
    (t : AttemptTracker) (now : Int) :
    calculateRiskScore cfg t now =
      riskSignalHighFrequency cfg t + riskSignalFailureRate t +
      riskSignalAddressFanning t + riskSignalRapidAttempts t now := by
  simp only [calculateRiskScore, riskSignalHighFrequency, riskSignalFailureRate,
    riskSignalAddressFanning, riskSignalRapidAttempts, max_def]
  repeat' split
  all_goals omega

/-! ## Subnet-abuse counting (claim C10) -/

theorem mget_eq_none_of_not_mem {κ α : Type} [DecidableEq κ]
    (m : List (κ × α)) (k : κ) (h : k ∉ m.map Prod.fst) : mget m k = none := by
  induction m with
  | nil => rfl
  | cons p t ih =>
    simp only [List.map_cons, List.mem_cons, not_or] at h
    have hne : ¬ (p.1 = k) := fun e => h.1 e.symm
    simp [mget, hne, ih h.2]

theorem mset_eq_append_of_mget_none {κ α : Type} [DecidableEq κ]
    (m : List (κ × α)) (k : κ) (v : α) (h : mget m k = none) :
    mset m k v = m ++ [(k, v)] := by
  induction m with
  | nil => rfl
  | cons p t ih =>
    by_cases hp : p.1 = k
    · simp [mget, hp] at h
    · simp only [mget, hp, if_false] at h
      simp [mset, hp, ih h]

theorem filter_ne_eq_self_of_mget_none {α : Type}
    (m : List (String × α)) (k : String) (h : mget m k = none) :
    m.filter (fun kv => kv.1 != k) = m := by
  induction m with
  | nil => rfl
  | cons p t ih =>
    by_cases hp : p.1 = k
    · simp [mget, hp] at h
    · simp only [mget, hp, if_false] at h
      simp [List.filter_cons, hp, ih h]

/-- For a tracker map with distinct keys that contains `ip`, the keyed count
splits into "other keys" plus one for `ip` itself. -/
theorem countP_eq_filter_countP_add_one (f : String → Bool)
    (l : List (String × AttemptTracker)) (ip : String) (tr : AttemptTracker)
    (hnodup : (l.map Prod.fst).Nodup) (hm : mget l ip = some tr)
    (hf : f ip = true) :
    l.countP (fun kv => f kv.1) =
      (l.filter (fun kv => kv.1 != ip)).countP (fun kv => f kv.1) + 1 := by
  induction l with
  | nil => simp [mget] at hm
  | cons p t ih =>
    simp only [List.map_cons, List.nodup_cons] at hnodup
    by_cases hp : p.1 = ip
    · have hnotin : ip ∉ t.map Prod.fst := hp ▸ hnodup.1
      have hnone := mget_eq_none_of_not_mem t ip hnotin
      rw [List.countP_cons, List.filter_cons]
      have hpk : (p.1 != ip) = false := by simp [hp]
      rw [hpk]
      rw [filter_ne_eq_self_of_mget_none t ip hnone]
      have hfp : f p.1 = true := by rw [hp, hf]
      simp [hfp]
    · simp only [mget, hp, if_false] at hm
      rw [List.countP_cons, List.filter_cons]
      have hpk : (p.1 != ip) = true := by simp [hp]
      rw [hpk]
      simp only [if_true, List.countP_cons]
      rw [ih hnodup.2 hm]
      omega

/-- The keyed count over the tracker map after `getOrCreateTracker` equals the
count over the other tracked keys plus one for the requester. -/
theorem countP_getOrCreateTracker (f : String → Bool)
    (l : List (String × AttemptTracker)) (ip : String) (now : Int)
    (hnodup : (l.map Prod.fst).Nodup) (hf : f ip = true) :
    (getOrCreateTracker l ip now).2.countP (fun kv => f kv.1) =
      (l.filter (fun kv => kv.1 != ip)).countP (fun kv => f kv.1) + 1 := by
  unfold getOrCreateTracker
  cases hm : mget l ip with
  | none =>
    simp only []
    rw [mset_eq_append_of_mget_none l ip (newTracker now) hm,
      List.countP_append, filter_ne_eq_self_of_mget_none l ip hm]
    simp [hf]
  | some tr =>
    simp only []
    exact countP_eq_filter_countP_add_one f l ip tr hnodup hm hf

/-- C10: with subnet checking enabled and all earlier gates passing, the
subnet-abuse count of tracked IPs in the requester's /24 (IPv4) or /64 (IPv6)
subnet includes the requester itself (whose tracker `CheckRequest` creates
before the subnet check), so the request is denied with reason
`"Multiple requests detected from your subnet"` exactly when at least five
*other* tracked IPs lie in the requester's subnet. -/
theorem subnet_denial_iff_five_others
    (net : NetModel) (st : AbuseDetector) (ip addr : String) (now : Int)
    (p : net.Addr) (mem : net.Addr → Bool)
    (hp : net.parseIP ip = some p)
    (hsn : (if net.isV4 p then net.subnetV4 ip else net.subnetV6 ip) = some mem)
    (hmemp : mem p = true)
    (hnodup : (st.ipAttempts.map Prod.fst).Nodup)
    (hbip : mget st.blockedIPs ip = none)
    (hbaddr : mget st.blockedAddrs addr = none)
    (hhour : now - (getOrCreateTracker st.ipAttempts ip now).1.firstAttempt < hourNs)
    (hcnt : ¬ ((getOrCreateTracker st.ipAttempts ip now).1.count ≥
      st.config.maxAttemptsPerHour))
    (hday : ¬ ((getOrCreateTracker st.ipAttempts ip now).1.successfulCount +
      (getOrCreateTracker st.ipAttempts ip now).1.failedCount ≥
      st.config.maxAttemptsPerDay))
    (hsub : st.config.subnetCheckEnabled = true) :
    ((checkRequest net st ip addr now).1.allowed = false ∧
     (checkRequest net st ip addr now).1.reason =
       "Multiple requests detected from your subnet") ↔
    5 ≤ (st.ipAttempts.filter (fun kv => kv.1 != ip)).countP
      (fun kv => match net.parseIP kv.1 with
                 | some q => mem q
                 | none => false) := by
  have hf : (fun s => match net.parseIP s with
      | some q => mem q
      | none => false) ip = true := by
    show (match net.parseIP ip with
      | some q => mem q
      | none => false) = true
    rw [hp]
    exact hmemp
  rw [checkRequest_eq_core net st ip addr now hbip hbaddr]
  unfold checkRequestCore
  simp only []
  rw [if_pos hhour, if_neg hcnt]
  unfold checkRequestTail
  rw [if_neg hday]
  have hcsa : checkSubnetAbuse net
      { st with ipAttempts := (getOrCreateTracker st.ipAttempts ip now).2 } ip =
      decide (5 ≤ (st.ipAttempts.filter (fun kv => kv.1 != ip)).countP
        (fun kv => match net.parseIP kv.1 with
                   | some q => mem q
                   | none => false)) := by
    unfold checkSubnetAbuse
    rw [hp]
    simp only []
    rw [hsn]
    simp only []
    have hcount : (getOrCreateTracker st.ipAttempts ip now).2.countP
        (fun kv => match net.parseIP kv.1 with
                   | some q => mem q
                   | none => false) =
        (st.ipAttempts.filter (fun kv => kv.1 != ip)).countP
          (fun kv => match net.parseIP kv.1 with
                     | some q => mem q
                     | none => false) + 1 :=
      countP_getOrCreateTracker
        (fun s => match net.parseIP s with
                  | some q => mem q
                  | none => false) st.ipAttempts ip now hnodup hf
    apply decide_eq_decide.mpr
    omega
  rw [hsub, hcsa]
  by_cases ho : 5 ≤ (st.ipAttempts.filter (fun kv => kv.1 != ip)).countP
      (fun kv => match net.parseIP kv.1 with
                 | some q => mem q
                 | none => false)
  · simp [ho]
  · simp [ho]

/-- Net model for the C10 witness: every string parses as an IPv4 address in
one common subnet. -/
def c10net : NetModel :=
  { Addr := Unit, parseIP := fun _ => some (), isV4 := fun _ => true,
    subnetV4 := fun _ => some (fun _ => true), subnetV6 := fun _ => none,
    inPrivateRange := fun _ => false }

/-- Pre-state for the C10 witness: five other IPs of the subnet already
tracked, requester not yet tracked. -/
def c10st : AbuseDetector :=
  { ipAttempts := [("10.0.0.1", newTracker 0), ("10.0.0.2", newTracker 0),
                   ("10.0.0.3", newTracker 0), ("10.0.0.4", newTracker 0),
                   ("10.0.0.5", newTracker 0)],
    addressAttempts := [], blockedIPs := [], blockedAddrs := [],
    config := { maxAttemptsPerHour := 3, maxAttemptsPerDay := 50,
                blockDuration := 24 * hourNs, subnetCheckEnabled := true,
                vpnDetectionEnabled := false, suspiciousThreshold := 5 } }

theorem subnet_denial_iff_five_others_witness :
    (((checkRequest c10net c10st "10.0.0.6" "aura1q" 0).1.allowed = false ∧
      (checkRequest c10net c10st "10.0.0.6" "aura1q" 0).1.reason =
        "Multiple requests detected from your subnet") ↔
     5 ≤ (c10st.ipAttempts.filter (fun kv => kv.1 != "10.0.0.6")).countP
       (fun kv => match c10net.parseIP kv.1 with
                  | some q => (fun _ => true : c10net.Addr → Bool) q
                  | none => false)) :=
  subnet_denial_iff_five_others c10net c10st "10.0.0.6" "aura1q" 0 ()
    (fun _ => true) rfl rfl rfl (by decide) rfl rfl (by decide) (by decide)
    (by decide) rfl

/-! ## CAPTCHA service (`backend/pkg/captcha/captcha.go`)

The `crypto/rand` draws of `generateSolution` are modelled as a stream
`r : Nat → Nat` giving the i-th draw of `rand.Int(rand.Reader, len(chars))`;
in Go each draw lies in `[0, len(chars))`, and an out-of-range draw (which
cannot occur) indexes to a space character in the model.  Image rendering
(`generateImage` and `ImageData`) is not modelled: no claim concerns pixels.
`Length` is Go `int`, modelled as `Nat`: `make([]byte, n)` panics on a
negative length, and the constructor only ever normalizes `0` to `6`. -/

/-- `CaptchaOptions`. -/
structure CaptchaOptions where
  length : Nat
  width : Int
  height : Int
  ttl : Int
  difficulty : String
deriving Repr, DecidableEq

/-- `CaptchaData` (without the image bytes). -/
structure CaptchaData where
  id : String
  solution : String
  createdAt : Int
  expiresAt : Int
deriving Repr, DecidableEq

/-- The option normalization of `NewCaptchaService`. -/
def normalizeCaptchaOptions (o : CaptchaOptions) : CaptchaOptions :=
  { length := if o.length = 0 then 6 else o.length,
    width := if o.width = 0 then 200 else o.width,
    height := if o.height = 0 then 80 else o.height,
    ttl := if o.ttl = 0 then 5 * minuteNs else o.ttl,
    difficulty := if o.difficulty = "" then "medium" else o.difficulty }

/-- The character set selected by `generateSolution`'s switch. -/
def solutionCharset (difficulty : String) : String :=
  if difficulty = "easy" then "ABCDEFGHJKLMNPQRSTUVWXYZ23456789"
  else if difficulty = "hard" then
    "ABCDEFGHIJKLMNOPQRSTUVWXYZabcdefghijklmnopqrstuvwxyz0123456789"
  else "ABCDEFGHJKLMNPQRSTUVWXYZ23456789"

/-- `generateSolution`: one character per draw, indexed into the charset. -/
def generateSolution (opts : CaptchaOptions) (r : Nat → Nat) : String :=
  String.mk ((List.range opts.length).map
    (fun i => (solutionCharset opts.difficulty).data.getD (r i) ' '))

/-- `Generate` (with the random id, the random stream and the clock passed
explicitly): stores the challenge with the configured TTL. -/
def generate (opts : CaptchaOptions) (store : List (String × CaptchaData))
    (id : String) (r : Nat → Nat) (now : Int) :
    CaptchaData × List (String × CaptchaData) :=
  let captcha : CaptchaData :=
    { id := id, solution := generateSolution opts r, createdAt := now,
      expiresAt := now + opts.ttl }
  (captcha, mset store id captcha)

/-- `Validate`: miss returns false; expired evicts and returns false;
otherwise exact comparison and unconditional eviction. -/
def validate (store : List (String × CaptchaData)) (id solution : String)
    (now : Int) : Bool × List (String × CaptchaData) :=
  match mget store id with
  | none => (false, store)
  | some captcha =>
    if captcha.expiresAt < now then (false, mdel store id)
    else (captcha.solution == solution, mdel store id)

/-- C3: a generated CAPTCHA's solution length equals the configured length;
before expiry, `Validate` returns true exactly when the candidate equals the
stored solution, and it evicts the entry regardless of the outcome, so a
second `Validate` on the same id always returns false. -/
theorem captcha_exact_and_one_time
    (opts : CaptchaOptions) (store : List (String × CaptchaData))
    (id s s2 : String) (r : Nat → Nat) (t now now2 : Int)
    (hnow : ¬ ((generate opts store id r t).1.expiresAt < now)) :
    (generateSolution opts r).length = opts.length ∧
    ((validate (generate opts store id r t).2 id s now).1 = true ↔
      s = (generate opts store id r t).1.solution) ∧
    mget (validate (generate opts store id r t).2 id s now).2 id = none ∧
    (validate (validate (generate opts store id r t).2 id s now).2 id s2
      now2).1 = false := by
  have hmk : ∀ l : List Char, (String.mk l).length = l.length := fun _ => rfl
  have hlen : (generateSolution opts r).length = opts.length := by
    unfold generateSolution
    rw [hmk, List.length_map, List.length_range]
  have hg : mget (generate opts store id r t).2 id =
      some (generate opts store id r t).1 := by
    unfold generate
    exact mget_mset_self store id _
  have hv : validate (generate opts store id r t).2 id s now =
      ((generate opts store id r t).1.solution == s,
       mdel (generate opts store id r t).2 id) := by
    unfold validate
    rw [hg]
    simp only []
    rw [if_neg hnow]
  refine ⟨hlen, ?_, ?_, ?_⟩
  · rw [hv]
    simp only [beq_iff_eq]
    exact eq_comm
  · rw [hv]
    exact mget_mdel_self _ id
  · rw [hv]
    unfold validate
    rw [mget_mdel_self]

theorem captcha_exact_and_one_time_witness :
    ((generateSolution ⟨6, 200, 80, 5 * minuteNs, "medium"⟩ (fun _ => 0)).length
       = (⟨6, 200, 80, 5 * minuteNs, "medium"⟩ : CaptchaOptions).length ∧
     ((validate (generate ⟨6, 200, 80, 5 * minuteNs, "medium"⟩ [] "cid"
         (fun _ => 0) 0).2 "cid" "AAAAAA" 0).1 = true ↔
       "AAAAAA" = (generate ⟨6, 200, 80, 5 * minuteNs, "medium"⟩ [] "cid"
         (fun _ => 0) 0).1.solution) ∧
     mget (validate (generate ⟨6, 200, 80, 5 * minuteNs, "medium"⟩ [] "cid"
       (fun _ => 0) 0).2 "cid" "AAAAAA" 0).2 "cid" = none ∧
     (validate (validate (generate ⟨6, 200, 80, 5 * minuteNs, "medium"⟩ []
       "cid" (fun _ => 0) 0).2 "cid" "AAAAAA" 0).2 "cid" "AAAAAA" 0).1 =
       false) :=
  captcha_exact_and_one_time ⟨6, 200, 80, 5 * minuteNs, "medium"⟩ [] "cid"
    "AAAAAA" "AAAAAA" (fun _ => 0) 0 0 0 (by decide)

/-! ## Metrics tracker (`metrics/tracker.go`, `src/unnamed/part_003`)

Go `float64` aggregates are modelled as `Rat`.  `Timestamp.Hour()` and
`Timestamp.Format("2006-01-02")` are local-timezone accessors of the `time`
package, modelled as parameters `hourOf`/`dateOf`.  Go map iteration order is
modelled as insertion order (it only affects tie-breaking among equal-count
recipients, which the spec leaves unspecified). -/

/-- `RequestMetrics`. -/
structure RequestMetrics where
  ip : String
  address : String
  amount : Int
  success : Bool
  errorType : String
  responseTime : Int
  timestamp : Int
  captchaSolved : Bool
  powCompleted : Bool
deriving Repr, DecidableEq

/-- The mutable state of `MetricsTracker`. -/
structure MetricsTracker where
  totalRequests : Int
  successfulRequests : Int
  failedRequests : Int
  blockedRequests : Int
  totalTokensDistributed : Int
  avgTokensPerRequest : Rat
  requestsPerHour : List (Int × Int)
  requestsPerDay : List (String × Int)
  uniqueAddresses : List (String × Bool)
  topRecipients : List (String × Int)
  uniqueIPs : List (String × Bool)
  requestsByCountry : List (String × Int)
  avgResponseTime : Int
  responseTimes : List Int
  maxResponseTime : Int
  errorCounts : List (String × Int)
  startTime : Int
deriving Repr, DecidableEq

/-- `NewMetricsTracker`. -/
def newMetricsTracker (now : Int) : MetricsTracker :=
  { totalRequests := 0, successfulRequests := 0, failedRequests := 0,
    blockedRequests := 0, totalTokensDistributed := 0, avgTokensPerRequest := 0,
    requestsPerHour := [], requestsPerDay := [], uniqueAddresses := [],
    topRecipients := [], uniqueIPs := [], requestsByCountry := [],
    avgResponseTime := 0, responseTimes := [], maxResponseTime := 0,
    errorCounts := [], startTime := now }

/-- The running total of the response-time loop. -/
def sumList : List Int → Int
  | [] => 0
  | x :: t => x + sumList t

/-- `RecordRequest`. -/
def recordRequest (hourOf : Int → Int) (dateOf : Int → String)
    (m : MetricsTracker) (x : RequestMetrics) : MetricsTracker :=
  let m : MetricsTracker := { m with totalRequests := m.totalRequests + 1 }
  let m : MetricsTracker :=
    if x.success then
      { m with
        successfulRequests := m.successfulRequests + 1
        totalTokensDistributed := m.totalTokensDistributed + x.amount
        uniqueAddresses := mset m.uniqueAddresses x.address true
        topRecipients := mset m.topRecipients x.address
          ((mget m.topRecipients x.address).getD 0 + 1) }
    else
      let m : MetricsTracker := { m with failedRequests := m.failedRequests + 1 }
      if x.errorType ≠ "" then
        { m with
          errorCounts := mset m.errorCounts x.errorType
            ((mget m.errorCounts x.errorType).getD 0 + 1) }
      else m
  let m : MetricsTracker := { m with uniqueIPs := mset m.uniqueIPs x.ip true }
  let m : MetricsTracker := { m with
    requestsPerHour := mset m.requestsPerHour (hourOf x.timestamp)
      ((mget m.requestsPerHour (hourOf x.timestamp)).getD 0 + 1) }
  let m : MetricsTracker := { m with
    requestsPerDay := mset m.requestsPerDay (dateOf x.timestamp)
      ((mget m.requestsPerDay (dateOf x.timestamp)).getD 0 + 1) }
  let m : MetricsTracker := { m with
    responseTimes := m.responseTimes ++ [x.responseTime]
    maxResponseTime := if x.responseTime > m.maxResponseTime then x.responseTime
      else m.maxResponseTime }
  let m : MetricsTracker :=
    if 0 < m.responseTimes.length then
      { m with avgResponseTime :=
          Int.tdiv (sumList m.responseTimes) (Int.ofNat m.responseTimes.length) }
    else m
  let m : MetricsTracker :=
    if m.responseTimes.length > 10000 then
      { m with responseTimes := m.responseTimes.drop (m.responseTimes.length - 1000) }
    else m
  let m : MetricsTracker :=
    if (0 : Int) < m.successfulRequests then
      { m with avgTokensPerRequest :=
          (m.totalTokensDistributed : Rat) / (m.successfulRequests : Rat) }
    else m
  m

/-- `RecordBlocked`. -/
def recordBlocked (m : MetricsTracker) (ip : String) : MetricsTracker :=
  { m with
    blockedRequests := m.blockedRequests + 1
    uniqueIPs := mset m.uniqueIPs ip true }

/-- `RecipientStat`. -/
structure RecipientStat where
  address : String
  requestCount : Int
  totalAmount : Int
deriving Repr, DecidableEq

/-- One pass of `GetSummary`'s double swap loop at a fixed outer index:
`x` is the running value at that index, the returned list holds the values the
inner loop leaves behind. -/
def selectPass (x : RecipientStat) : List RecipientStat →
    RecipientStat × List RecipientStat
  | [] => (x, [])
  | y :: t =>
    if y.requestCount > x.requestCount then
      let r := selectPass y t
      (r.1, x :: r.2)
    else
      let r := selectPass x t
      (r.1, y :: r.2)

theorem selectPass_length (x : RecipientStat) (l : List RecipientStat) :
    (selectPass x l).2.length = l.length := by
  induction l generalizing x with
  | nil => rfl
  | cons y t ih =>
    unfold selectPass
    by_cases h : y.requestCount > x.requestCount <;> simp [h, ih]

/-- The full swap sort of `GetSummary` (descending by request count). -/
def selSort : List RecipientStat → List RecipientStat
  | [] => []
  | x :: t => (selectPass x t).1 :: selSort (selectPass x t).2
termination_by l => l.length
decreasing_by
  simp only [selectPass_length, List.length_cons]
  omega

/-- `Summary`. -/
structure Summary where
  totalRequests : Int
  successfulRequests : Int
  failedRequests : Int
  blockedRequests : Int
  successRate : Rat
  totalTokensDistributed : Int
  uniqueAddresses : Nat
  uniqueIPs : Nat
  avgResponseTime : Int
  maxResponseTime : Int
  uptimeHours : Rat
  requestsPerHour : Rat
  topRecipients : List RecipientStat
  errorBreakdown : List (String × Int)
  hourlyDistribution : List (Int × Int)
deriving Repr, DecidableEq

/-- `GetSummary`. -/
def getSummary (m : MetricsTracker) (now : Int) : Summary :=
  let uptime : Rat := ((now - m.startTime : Int) : Rat) / ((hourNs : Int) : Rat)
  let reqPerHour : Rat :=
    if uptime > 0 then (m.totalRequests : Rat) / uptime else 0
  let successRate : Rat :=
    if m.totalRequests > 0 then
      ((m.successfulRequests : Rat) / (m.totalRequests : Rat)) * 100
    else 0
  let top := selSort (m.topRecipients.map (fun kv =>
    { address := kv.1, requestCount := kv.2, totalAmount := 0 }))
  let top := if top.length > 10 then top.take 10 else top
  { totalRequests := m.totalRequests,
    successfulRequests := m.successfulRequests,
    failedRequests := m.failedRequests,
    blockedRequests := m.blockedRequests,
    successRate := successRate,
    totalTokensDistributed := m.totalTokensDistributed,
    uniqueAddresses := m.uniqueAddresses.length,
    uniqueIPs := m.uniqueIPs.length,
    avgResponseTime := m.avgResponseTime,
    maxResponseTime := m.maxResponseTime,
    uptimeHours := uptime,
    requestsPerHour := reqPerHour,
    topRecipients := top,
    errorBreakdown := m.errorCounts,
    hourlyDistribution := m.requestsPerHour }

/-! ## Metrics claims (C5) -/

/-- Hour accessor for the C5 runs (`Timestamp.Hour()`). -/
def c5hour : Int → Int := fun _ => 12

/-- Date accessor for the C5 runs (`Timestamp.Format("2006-01-02")`). -/
def c5date : Int → String := fun _ => "2026-01-01"

/-- C5 run: the successful request. -/
def c5req1 : RequestMetrics :=
  { ip := "198.51.100.1", address := "aura1alpha", amount := 1000000,
    success := true, errorType := "", responseTime := 20, timestamp := 0,
    captchaSolved := true, powCompleted := true }

/-- C5 run: the failed request, with a distinct address and IP. -/
def c5req2 : RequestMetrics :=
  { ip := "198.51.100.2", address := "aura1beta", amount := 500000,
    success := false, errorType := "captcha_failed", responseTime := 40,
    timestamp := 0, captchaSolved := false, powCompleted := false }

/-- The tracker after recording the C5 pair. -/
def c5state : MetricsTracker :=
  recordRequest c5hour c5date
    (recordRequest c5hour c5date (newMetricsTracker 0) c5req1) c5req2

/-- C5 counterexample: after one successful and one failed request with
distinct addresses and distinct IPs, the summary reports
`UniqueAddresses = 1`, not 2 — `RecordRequest` adds the address to the
unique-address set only for successful requests. -/
theorem metrics_unique_addresses_counterexample :
    c5req1.address ≠ c5req2.address ∧ c5req1.ip ≠ c5req2.ip ∧
    c5req2.errorType ≠ "" ∧
    (getSummary c5state 1).totalRequests = 2 ∧
    (getSummary c5state 1).uniqueAddresses = 1 ∧
    (getSummary c5state 1).uniqueAddresses ≠ 2 := by
  refine ⟨by decide, by decide, by decide, ?_, ?_, ?_⟩ <;> decide

/-- C5 (amended): `RecordRequest` adds the IP to the unique-IP set for every
recorded request but the address to the unique-address set only on success;
hence after one successful and one failed request with distinct IPs (addresses
arbitrary), `GetSummary` reports `TotalRequests = 2`,
`SuccessfulRequests = 1`, `FailedRequests = 1`, `UniqueAddresses = 1` (only
the successful request's address), `UniqueIPs = 2`, and the failed request's
non-empty error type present in the error breakdown with count 1. -/
theorem metrics_summary_one_success_one_failure
    (hourOf : Int → Int) (dateOf : Int → String) (t0 now : Int)
    (x1 x2 : RequestMetrics) (hs1 : x1.success = true)
    (hs2 : x2.success = false) (hip : x1.ip ≠ x2.ip)
    (herr : x2.errorType ≠ "") :
    let m := recordRequest hourOf dateOf
      (recordRequest hourOf dateOf (newMetricsTracker t0) x1) x2
    (getSummary m now).totalRequests = 2 ∧
    (getSummary m now).successfulRequests = 1 ∧
    (getSummary m now).failedRequests = 1 ∧
    (getSummary m now).uniqueAddresses = 1 ∧
    (getSummary m now).uniqueIPs = 2 ∧
    mget (getSummary m now).errorBreakdown x2.errorType = some 1 := by
  intro m
  refine ⟨?_, ?_, ?_, ?_, ?_, ?_⟩ <;>
    simp [m, getSummary, recordRequest, newMetricsTracker, mget, mset,
      hs1, hs2, herr, hip]

theorem metrics_summary_one_success_one_failure_witness :
    ((getSummary c5state 1).totalRequests = 2 ∧
     (getSummary c5state 1).successfulRequests = 1 ∧
     (getSummary c5state 1).failedRequests = 1 ∧
     (getSummary c5state 1).uniqueAddresses = 1 ∧
     (getSummary c5state 1).uniqueIPs = 2 ∧
     mget (getSummary c5state 1).errorBreakdown c5req2.errorType = some 1) :=
  metrics_summary_one_success_one_failure c5hour c5date 0 1 c5req1 c5req2
    rfl rfl (by decide) (by decide)

end Faucet
